import Mathlib

/-!
Account Linking and Sign-Up: verification of the devflow auth flows.

Shallow embedding of the two non-trivial control-flow fragments of the
repository: the credential sign-up action (`signUpWithCredentials` in
`lib/actions/auth.action`, shipped in the combined source file) and the
OAuth link route (`POST /api/auth/signin-with-oauth`), together with the
`jwt` callback of `auth.ts` that consumes the invariant they establish.

The database is a pair of collections (users, accounts) plus a fresh-id
counter. A Mongoose transaction is modelled as a working copy of the
database: reads inside the transaction see the working copy, `commit`
installs it as the new committed state, `abort` discards it. Fallible
external steps (schema validation, bcrypt, `create`, `commitTransaction`,
`signIn`) are driven by an environment of boolean outcomes, so a theorem
quantified over the environment covers every combination of failures.
-/

namespace Devflow

/-- A User document: identity record with email, username, display name and
avatar reference (`database/user.model`, referenced by both flows). -/
structure User where
  id : Nat
  name : String
  username : String
  email : String
  image : Option String
deriving DecidableEq, Repr

/-- Models the bcryptjs library (an external collaborator): the digest of a
password records the cost factor and the hashed source. The digest is a
value of its own type, distinct from any plaintext string, so a password
field of type `Option BcryptDigest` can never hold the plaintext itself. -/
structure BcryptDigest where
  cost : Nat
  source : String
deriving DecidableEq, Repr

/-- `bcrypt.hash(password, rounds)`. -/
def bcryptHash (password : String) (rounds : Nat) : BcryptDigest :=
  { cost := rounds, source := password }

/-- An Account document: a linked authentication method for a User
(`database/account.model`): (userId, provider, providerAccountId), with a
password digest when the provider is "credentials". -/
structure Account where
  userId : Nat
  name : String
  image : Option String
  provider : String
  providerAccountId : String
  password : Option BcryptDigest
deriving DecidableEq, Repr

/-- The committed database state: the User and Account collections plus a
counter supplying fresh document ids. -/
structure DB where
  users : List User
  accounts : List Account
  nextId : Nat
deriving DecidableEq, Repr

/-- The errors the flows construct or surface. `error` is a plain
JavaScript `new Error(message)`; `validationError` and `conflictError`
model the `ValidationError` / `ConflictError` classes of
`lib/http-errors`. -/
inductive AppError where
  | validationError
  | conflictError (message : String)
  | error (message : String)
deriving DecidableEq, Repr

/-- Modelled from the spec: `lib/handlers/error` is not under `src/`; per
the spec every error is surfaced to the caller (ValidationError with field
details, ConflictError as a user-facing message, others as a generic
message), so an action's outcome embeds the error it surfaced. -/
inductive ActionOutcome where
  | success
  | errorResponse (e : AppError)
deriving DecidableEq, Repr

/-- Whether an outcome surfaces a `ConflictError`. -/
def ActionOutcome.isConflict : ActionOutcome → Bool
  | .errorResponse (.conflictError _) => true
  | _ => false

/-- The observable events of one sign-up execution, in order: transaction
start, successful commit, the `signIn("credentials", ...)` call,
transaction abort, and the `finally`-block `endSession`. -/
inductive Event where
  | startTx
  | commitTx
  | abortTx
  | signInCall
  | sessionClosed
deriving DecidableEq, Repr

/-- Outcomes of the fallible external steps of one sign-up request.
`validOk` is modelled from the spec: the `SignUpSchema` validation
(`lib/validations`) is not under `src/`; the spec says only that input
shape/format is validated, so its verdict is a free boolean. -/
structure SignUpEnv where
  validOk : Bool
  hashOk : Bool
  userCreateOk : Bool
  accountCreateOk : Bool
  commitOk : Bool
  signInOk : Bool
deriving DecidableEq, Repr

/-- The sign-up request parameters (`AuthCredentials`). -/
structure AuthCredentials where
  name : String
  username : String
  email : String
  password : String
deriving DecidableEq, Repr

/-- Everything observable about one finished sign-up request: the committed
database, the returned outcome, whether a session was started/ended,
whether the transaction was started, committed or aborted, and the event
trace. -/
structure SignUpResult where
  db : DB
  outcome : ActionOutcome
  sessionStarted : Bool
  sessionEnded : Bool
  txStarted : Bool
  committed : Bool
  aborted : Bool
  events : List Event
deriving DecidableEq, Repr

/-- The result of a sign-up that threw inside the transaction: the catch
block runs `abortTransaction` (the commit flag is still false), returns
`handleError(error)`, and the `finally` block ends the session. The
committed database is untouched. -/
def signUpAborted (db : DB) (e : AppError) : SignUpResult :=
  { db := db
    outcome := .errorResponse e
    sessionStarted := true
    sessionEnded := true
    txStarted := true
    committed := false
    aborted := true
    events := [.startTx, .abortTx, .sessionClosed] }

/-- The User document `User.create([{ username, name, email }])` inserts:
the username is stored exactly as supplied (no slug normalization in this
flow), and no avatar is set. -/
def signUpNewUser (p : AuthCredentials) (db : DB) : User :=
  { id := db.nextId, name := p.name, username := p.username
    email := p.email, image := none }

/-- The Account document `Account.create` inserts for a sign-up: provider
"credentials", `providerAccountId` set to the email, and the bcrypt digest
of the password at cost 12. -/
def signUpNewAccount (p : AuthCredentials) (db : DB) : Account :=
  { userId := db.nextId, name := p.name, image := none
    provider := "credentials", providerAccountId := p.email
    password := some (bcryptHash p.password 12) }

/-- The database state a successful sign-up commits: the new User and its
"credentials" Account appended. -/
def signUpCommittedDB (p : AuthCredentials) (db : DB) : DB :=
  { users := db.users ++ [signUpNewUser p db]
    accounts := db.accounts ++ [signUpNewAccount p db]
    nextId := db.nextId + 1 }

/-- `signUpWithCredentials(params)`, step for step:
validate (before any session exists); start session and transaction;
reject an existing email with `new Error("User already exists")`; reject
an existing username with `new Error("Username already exists")`; hash the
password with bcrypt at cost 12; create the User; create the linked
"credentials" Account (the duplicate-key guard on
(provider, providerAccountId) is modelled from the spec: the Account
schema with its unique index is not under `src/`); commit; only then call
`signIn`; any throw before the commit aborts the transaction; a `signIn`
throw after the commit is caught with the commit flag already set, so no
abort happens and `handleError` is returned; `endSession` runs in the
`finally` block whenever the session was started. -/
def signUpWithCredentials (env : SignUpEnv) (p : AuthCredentials) (db : DB) :
    SignUpResult :=
  if env.validOk = false then
    { db := db, outcome := .errorResponse .validationError
      sessionStarted := false, sessionEnded := false
      txStarted := false, committed := false, aborted := false, events := [] }
  else if db.users.any (fun u => u.email == p.email) then
    signUpAborted db (.error "User already exists")
  else if db.users.any (fun u => u.username == p.username) then
    signUpAborted db (.error "Username already exists")
  else if env.hashOk = false then
    signUpAborted db (.error "hash failed")
  else if env.userCreateOk = false then
    signUpAborted db (.error "user create failed")
  else if env.accountCreateOk = false then
    signUpAborted db (.error "account create failed")
  else if db.accounts.any (fun a =>
      a.provider == "credentials" && a.providerAccountId == p.email) then
    signUpAborted db (.error "duplicate key")
  else if env.commitOk = false then
    signUpAborted db (.error "commit failed")
  else if env.signInOk = false then
    { db := signUpCommittedDB p db
      outcome := .errorResponse (.error "signIn failed")
      sessionStarted := true, sessionEnded := true
      txStarted := true, committed := true, aborted := false
      events := [.startTx, .commitTx, .signInCall, .sessionClosed] }
  else
    { db := signUpCommittedDB p db
      outcome := .success
      sessionStarted := true, sessionEnded := true
      txStarted := true, committed := true, aborted := false
      events := [.startTx, .commitTx, .signInCall, .sessionClosed] }

/-- One character of `slugify(username, { lower: true, strict: true,
trim: true })` (the `slugify` npm package, an external collaborator):
alphanumeric characters are lower-cased, spaces become the replacement
character "-", existing "-" survive the strict filter, every other
character is dropped. -/
def slugChar (c : Char) : String :=
  if c.isAlphanum then String.singleton c.toLower
  else if c = ' ' || c = '-' then "-"
  else ""

/-- Drop leading and trailing replacement characters (`trim: true`). -/
def trimDashes (s : String) : String :=
  String.mk ((s.toList.dropWhile (· = '-')).reverse.dropWhile (· = '-')
    |>.reverse)

/-- `slugify(s, { lower: true, strict: true, trim: true })`. -/
def slugify (s : String) : String :=
  trimDashes (String.join (s.toList.map slugChar))

/-- The partial update `updatedData` the OAuth route builds: a field is
present exactly when it differs from the stored value. -/
structure UserUpdate where
  name : Option String
  image : Option String
deriving DecidableEq, Repr

/-- `updatedData` for an existing user against the incoming OAuth profile:
`if (existingUser.name !== name) updatedData.name = name;` and likewise
for the image. -/
def diffUpdate (u : User) (name : String) (image : String) : UserUpdate :=
  { name := if u.name = name then none else some name
    image := if u.image = some image then none else some image }

/-- `Object.keys(updatedData).length > 0` is false: the update carries no
field. -/
def UserUpdate.isEmpty (d : UserUpdate) : Bool :=
  d.name == none && d.image == none

/-- `User.updateOne({ _id }, { $set: updatedData })`: exactly the fields
present in the update are overwritten; every other field keeps its stored
value. -/
def applyUpdate (u : User) (d : UserUpdate) : User :=
  { u with
    name := d.name.getD u.name
    image := match d.image with
      | some i => some i
      | none => u.image }

/-- Outcomes of the fallible external steps of one OAuth link request.
`validOk` is modelled from the spec: `SignInWithOAuthSchema`
(`lib/validations`) is not under `src/`, so its verdict is a free
boolean. -/
structure OAuthEnv where
  validOk : Bool
  userCreateOk : Bool
  userUpdateOk : Bool
  accountCreateOk : Bool
  commitOk : Bool
deriving DecidableEq, Repr

/-- The incoming OAuth profile fields (`user` in the request body). -/
structure OAuthUser where
  name : String
  username : String
  email : String
  image : String
deriving DecidableEq, Repr

/-- The OAuth link request body: provider, providerAccountId and profile. -/
structure OAuthParams where
  provider : String
  providerAccountId : String
  user : OAuthUser
deriving DecidableEq, Repr

/-- Everything observable about one finished OAuth link request.
`updateIssued` records whether the route issued a `User.updateOne`
write. -/
structure OAuthResult where
  db : DB
  outcome : ActionOutcome
  sessionEnded : Bool
  committed : Bool
  aborted : Bool
  updateIssued : Bool
deriving DecidableEq, Repr

/-- The result of an OAuth request that threw: the catch block aborts the
transaction, `handleError(error, "api")` is returned, and the `finally`
block ends the session. The committed database is untouched. -/
def oauthAborted (db : DB) (e : AppError) (updIssued : Bool) : OAuthResult :=
  { db := db, outcome := .errorResponse e, sessionEnded := true
    committed := false, aborted := true, updateIssued := updIssued }

/-- The second half of the OAuth route, after the User is resolved:
look up the Account by (userId, provider, providerAccountId) inside the
transaction; if absent, create it referencing the resolved user (the
duplicate-key guard on (provider, providerAccountId) is modelled from the
spec: the Account schema with its unique index is not under `src/`);
commit the transaction. `tx` is the transaction's working state, `db` the
committed state a throw falls back to, `uid` the resolved user's id. -/
def oauthAccountPhase (env : OAuthEnv) (p : OAuthParams) (db tx : DB)
    (uid : Nat) (updIssued : Bool) : OAuthResult :=
  match tx.accounts.find? (fun a =>
      a.userId == uid && a.provider == p.provider
        && a.providerAccountId == p.providerAccountId) with
  | some _ =>
    if env.commitOk = false then
      oauthAborted db (.error "commit failed") updIssued
    else
      { db := tx, outcome := .success, sessionEnded := true
        committed := true, aborted := false, updateIssued := updIssued }
  | none =>
    if env.accountCreateOk = false then
      oauthAborted db (.error "account create failed") updIssued
    else if tx.accounts.any (fun a =>
        a.provider == p.provider
          && a.providerAccountId == p.providerAccountId) then
      oauthAborted db (.error "duplicate key") updIssued
    else
      let tx2 : DB :=
        { tx with accounts := tx.accounts ++
            [{ userId := uid, name := p.user.name, image := some p.user.image
               provider := p.provider
               providerAccountId := p.providerAccountId, password := none }] }
      if env.commitOk = false then
        oauthAborted db (.error "commit failed") updIssued
      else
        { db := tx2, outcome := .success, sessionEnded := true
          committed := true, aborted := false, updateIssued := updIssued }

/-- The OAuth link route `POST /api/auth/signin-with-oauth`, step for
step: start session and transaction; validate the body (a failure throws
`ValidationError`); slugify the profile username; look up the User by
email inside the transaction; if absent create one from the profile with
the slugified username (the duplicate-key guard on the unique username
index is modelled from the spec: the User schema is not under `src/`); if
present, build the field diff and issue a `$set` update only when the diff
is non-empty; then resolve the Account (`oauthAccountPhase`); any throw
aborts the transaction; `endSession` always runs in the `finally`
block. -/
def oauthSignIn (env : OAuthEnv) (p : OAuthParams) (db : DB) : OAuthResult :=
  if env.validOk = false then
    oauthAborted db .validationError false
  else
    match db.users.find? (fun u => u.email == p.user.email) with
    | none =>
      if env.userCreateOk = false then
        oauthAborted db (.error "user create failed") false
      else if db.users.any
          (fun u => u.username == slugify p.user.username) then
        oauthAborted db (.error "duplicate key") false
      else
        oauthAccountPhase env p db
          { users := db.users ++
              [{ id := db.nextId, name := p.user.name
                 username := slugify p.user.username
                 email := p.user.email, image := some p.user.image }]
            accounts := db.accounts
            nextId := db.nextId + 1 }
          db.nextId false
    | some u =>
      if (diffUpdate u p.user.name p.user.image).isEmpty then
        oauthAccountPhase env p db db u.id false
      else if env.userUpdateOk = false then
        oauthAborted db (.error "user update failed") true
      else
        oauthAccountPhase env p db
          { db with users := db.users.map (fun v =>
              if v.id == u.id then
                applyUpdate v (diffUpdate u p.user.name p.user.image)
              else v) }
          u.id true

/-- The committed database after a sequence of OAuth link requests, each
with its own environment and body, run one after the other. -/
def runOAuthCalls : List (OAuthEnv × OAuthParams) → DB → DB
  | [], db => db
  | c :: rest, db => runOAuthCalls rest (oauthSignIn c.1 c.2 db).db

/-- The key the `jwt` callback of `auth.ts` passes to
`api.accounts.getByProvider`: the token's email for a "credentials"
account, the account's `providerAccountId` otherwise. -/
def jwtAccountLookupKey (accountType tokenEmail providerAccountId : String) :
    String :=
  if accountType == "credentials" then tokenEmail else providerAccountId

/-- The spec's Account invariant: at most one Account per
(provider, providerAccountId) pair. -/
def accountKeyUnique (db : DB) : Prop :=
  db.accounts.Pairwise (fun a b =>
    ¬(a.provider = b.provider ∧ a.providerAccountId = b.providerAccountId))

/-- The spec's User invariant: at most one User per email. -/
def emailUnique (db : DB) : Prop :=
  db.users.Pairwise (fun u v => u.email ≠ v.email)

/-- No `signInCall` event occurs before a `commitTx` event. -/
def noSignInBeforeCommit : List Event → Bool
  | [] => true
  | .signInCall :: _ => false
  | .commitTx :: _ => true
  | _ :: rest => noSignInBeforeCommit rest

/-- Case analysis of one sign-up run. Either the commit never happened —
then the committed database is untouched, an error response is returned,
the transaction was aborted exactly when it was started, the session was
ended exactly when it was started, and `signIn` was never called — or the
commit happened: the new User and Account are installed, no abort
occurred, the session was started and ended, the trace is
start/commit/signIn/close, and the outcome is success exactly when the
`signIn` call succeeded (otherwise the error response for the failed
`signIn`). -/
theorem signUpWithCredentials_cases (env : SignUpEnv) (p : AuthCredentials)
    (db : DB) :
    ((signUpWithCredentials env p db).committed = false ∧
      (signUpWithCredentials env p db).db = db ∧
      (∃ e, (signUpWithCredentials env p db).outcome = .errorResponse e) ∧
      (signUpWithCredentials env p db).aborted
        = (signUpWithCredentials env p db).txStarted ∧
      (signUpWithCredentials env p db).sessionEnded
        = (signUpWithCredentials env p db).sessionStarted ∧
      ((signUpWithCredentials env p db).events = [] ∨
        (signUpWithCredentials env p db).events
          = [.startTx, .abortTx, .sessionClosed])) ∨
    ((signUpWithCredentials env p db).committed = true ∧
      (signUpWithCredentials env p db).db = signUpCommittedDB p db ∧
      (signUpWithCredentials env p db).aborted = false ∧
      (signUpWithCredentials env p db).txStarted = true ∧
      (signUpWithCredentials env p db).sessionStarted = true ∧
      (signUpWithCredentials env p db).sessionEnded = true ∧
      (signUpWithCredentials env p db).events
        = [.startTx, .commitTx, .signInCall, .sessionClosed] ∧
      ((signUpWithCredentials env p db).outcome = .success
        ↔ env.signInOk = true) ∧
      ((signUpWithCredentials env p db).outcome = .success ∨
        (signUpWithCredentials env p db).outcome
          = .errorResponse (.error "signIn failed"))) := by
  unfold signUpWithCredentials
  repeat' split
  all_goals simp_all [signUpAborted, signUpCommittedDB]

/-- A `$set` update never touches the email. -/
theorem applyUpdate_email (u : User) (d : UserUpdate) :
    (applyUpdate u d).email = u.email := rfl

/-- A `$set` update never touches the username. -/
theorem applyUpdate_username (u : User) (d : UserUpdate) :
    (applyUpdate u d).username = u.username := rfl

/-- A `$set` update never touches the id. -/
theorem applyUpdate_id (u : User) (d : UserUpdate) :
    (applyUpdate u d).id = u.id := rfl

/-- The account phase passes the update-issued flag through unchanged. -/
theorem oauthAccountPhase_updateIssued (env : OAuthEnv) (p : OAuthParams)
    (db tx : DB) (uid : Nat) (b : Bool) :
    (oauthAccountPhase env p db tx uid b).updateIssued = b := by
  unfold oauthAccountPhase
  repeat' split
  all_goals simp [oauthAborted]

/-- The account phase always ends the session. -/
theorem oauthAccountPhase_sessionEnded (env : OAuthEnv) (p : OAuthParams)
    (db tx : DB) (uid : Nat) (b : Bool) :
    (oauthAccountPhase env p db tx uid b).sessionEnded = true := by
  unfold oauthAccountPhase
  repeat' split
  all_goals simp [oauthAborted]

/-- Either the account phase did not commit — then the committed database
is the one it was given and the transaction was aborted — or it committed,
and the users of the committed database are exactly the users of the
transaction state it was given. -/
theorem oauthAccountPhase_commit_cases (env : OAuthEnv) (p : OAuthParams)
    (db tx : DB) (uid : Nat) (b : Bool) :
    ((oauthAccountPhase env p db tx uid b).committed = false ∧
      (oauthAccountPhase env p db tx uid b).db = db ∧
      (oauthAccountPhase env p db tx uid b).aborted = true) ∨
    ((oauthAccountPhase env p db tx uid b).committed = true ∧
      (oauthAccountPhase env p db tx uid b).db.users = tx.users ∧
      (oauthAccountPhase env p db tx uid b).aborted = false) := by
  unfold oauthAccountPhase
  repeat' split
  all_goals simp [oauthAborted]

/-- If the account phase committed, the accounts of the committed database
are the transaction's accounts, either unchanged (the Account was found)
or extended by one new account for (uid, provider, providerAccountId)
whose key clashes with no account already present. -/
theorem oauthAccountPhase_accounts (env : OAuthEnv) (p : OAuthParams)
    (db tx : DB) (uid : Nat) (b : Bool) :
    (oauthAccountPhase env p db tx uid b).committed = false ∨
    (oauthAccountPhase env p db tx uid b).db.accounts = tx.accounts ∨
    ((oauthAccountPhase env p db tx uid b).db.accounts
        = tx.accounts ++
          [{ userId := uid, name := p.user.name, image := some p.user.image
             provider := p.provider
             providerAccountId := p.providerAccountId, password := none }] ∧
      ∀ x ∈ tx.accounts,
        ¬(x.provider = p.provider
          ∧ x.providerAccountId = p.providerAccountId)) := by
  unfold oauthAccountPhase
  repeat' split
  all_goals simp_all [oauthAborted, List.any_eq_true]

/-- Updating user documents in place preserves email uniqueness: the
`$set` update never touches the email. -/
theorem emailUnique_map_update (l : List User) (u : User) (d : UserUpdate)
    (h : l.Pairwise (fun a b => a.email ≠ b.email)) :
    (l.map (fun v => if v.id == u.id then applyUpdate v d else v)).Pairwise
      (fun a b => a.email ≠ b.email) := by
  rw [List.pairwise_map]
  refine h.imp ?_
  intro a b hab
  by_cases hia : (a.id == u.id) = true <;>
    by_cases hib : (b.id == u.id) = true <;>
      simp [hia, hib, applyUpdate_email, hab]

/-- The account phase preserves the two uniqueness invariants, provided
both the committed state it falls back to and the transaction state it
commits satisfy them: the only write it can commit is an Account whose
(provider, providerAccountId) key clashes with no existing account. -/
theorem oauthAccountPhase_preserves (env : OAuthEnv) (p : OAuthParams)
    (db tx : DB) (uid : Nat) (b : Bool)
    (hadb : accountKeyUnique db) (hedb : emailUnique db)
    (hatx : accountKeyUnique tx) (hetx : emailUnique tx) :
    accountKeyUnique (oauthAccountPhase env p db tx uid b).db ∧
    emailUnique (oauthAccountPhase env p db tx uid b).db := by
  rcases oauthAccountPhase_commit_cases env p db tx uid b with
    ⟨_, hdb, _⟩ | ⟨hc, hu, _⟩
  · rw [hdb]; exact ⟨hadb, hedb⟩
  · constructor
    · rcases oauthAccountPhase_accounts env p db tx uid b with
        h | h | ⟨heq, hcl⟩
      · rw [h] at hc; cases hc
      · unfold accountKeyUnique; rw [h]; exact hatx
      · unfold accountKeyUnique
        rw [heq, List.pairwise_append]
        refine ⟨hatx, by simp, ?_⟩
        intro x hx y hy
        simp only [List.mem_singleton] at hy
        subst hy
        exact hcl x hx
    · unfold emailUnique
      rw [hu]
      exact hetx

/-- One OAuth link request preserves the two uniqueness invariants of the
spec: at most one Account per (provider, providerAccountId) and at most
one User per email. -/
theorem oauthSignIn_preserves_invariants (env : OAuthEnv) (p : OAuthParams)
    (db : DB) (ha : accountKeyUnique db) (he : emailUnique db) :
    accountKeyUnique (oauthSignIn env p db).db ∧
    emailUnique (oauthSignIn env p db).db := by
  unfold oauthSignIn
  split
  · exact ⟨ha, he⟩
  · split
    · next heq =>
      split
      · exact ⟨ha, he⟩
      · split
        · exact ⟨ha, he⟩
        · next hdup =>
          refine oauthAccountPhase_preserves _ _ _ _ _ _ ha he ha ?_
          unfold emailUnique
          show (db.users ++
            [({ id := db.nextId, name := p.user.name
                username := slugify p.user.username
                email := p.user.email, image := some p.user.image } :
              User)]).Pairwise _
          rw [List.pairwise_append]
          refine ⟨he, by simp, ?_⟩
          intro x hx y hy
          simp only [List.mem_singleton] at hy
          subst hy
          have hne := List.find?_eq_none.mp heq x hx
          simpa using hne
    · next u heq =>
      split
      · exact oauthAccountPhase_preserves _ _ _ _ _ _ ha he ha he
      · split
        · exact ⟨ha, he⟩
        · refine oauthAccountPhase_preserves _ _ _ _ _ _ ha he ha ?_
          exact emailUnique_map_update _ _ _ he

/-- C1: if any step of `signUpWithCredentials` fails before the
transaction commit — validation error, duplicate email, duplicate
username, hashing, create or commit failure, i.e. every run that never
committed — the committed database is untouched (no User and no Account is
persisted), any started transaction was aborted, and an error response is
returned. -/
theorem signup_abort_before_commit_clean
    (env : SignUpEnv) (p : AuthCredentials) (db : DB)
    (h : (signUpWithCredentials env p db).committed = false) :
    (signUpWithCredentials env p db).db = db ∧
    ((signUpWithCredentials env p db).txStarted = true →
      (signUpWithCredentials env p db).aborted = true) ∧
    ∃ e, (signUpWithCredentials env p db).outcome = .errorResponse e := by
  rcases signUpWithCredentials_cases env p db with
    ⟨_, hdb, he, hab, _, _⟩ | ⟨hc, _⟩
  · exact ⟨hdb, fun ht => by rw [hab, ht], he⟩
  · rw [hc] at h; cases h

/-- Witness for C1 at a concrete input: the bcrypt hashing step fails, the
database is untouched and the transaction is aborted. -/
theorem signup_abort_before_commit_clean_witness :
    (signUpWithCredentials ⟨true, false, true, true, true, true⟩
        ⟨"Ana", "ana", "a@x.com", "pw"⟩ ⟨[], [], 0⟩).db = ⟨[], [], 0⟩ ∧
    (signUpWithCredentials ⟨true, false, true, true, true, true⟩
        ⟨"Ana", "ana", "a@x.com", "pw"⟩ ⟨[], [], 0⟩).aborted = true :=
  ⟨(signup_abort_before_commit_clean _ _ _ (by rfl)).1,
    (signup_abort_before_commit_clean _ _ _ (by rfl)).2.1
      (by rfl)⟩

/-- C2 counterexample: a sign-up whose email is already registered leaves
the database untouched but returns the plain error "User already exists" —
the flow throws `new Error(...)`, never the `ConflictError` class, so no
`ConflictError` reaches the caller. -/
theorem signup_duplicate_email_not_conflict_counterexample :
    (signUpWithCredentials ⟨true, true, true, true, true, true⟩
        ⟨"Ana", "ana", "a@x.com", "pw"⟩
        ⟨[{ id := 0, name := "Ana", username := "ana", email := "a@x.com",
            image := none }], [], 1⟩).db
      = ⟨[{ id := 0, name := "Ana", username := "ana", email := "a@x.com",
            image := none }], [], 1⟩ ∧
    (signUpWithCredentials ⟨true, true, true, true, true, true⟩
        ⟨"Ana", "ana", "a@x.com", "pw"⟩
        ⟨[{ id := 0, name := "Ana", username := "ana", email := "a@x.com",
            image := none }], [], 1⟩).outcome
      = .errorResponse (.error "User already exists") ∧
    (signUpWithCredentials ⟨true, true, true, true, true, true⟩
        ⟨"Ana", "ana", "a@x.com", "pw"⟩
        ⟨[{ id := 0, name := "Ana", username := "ana", email := "a@x.com",
            image := none }], [], 1⟩).outcome.isConflict = false := by
  refine ⟨rfl, rfl, rfl⟩

/-- C2 amended: a sign-up with an already-registered email creates no User
and no Account and returns the error response for the plain error
"User already exists"; one with a fresh email but an already-registered
username creates nothing and returns the plain error
"Username already exists". (The code throws `new Error(...)`, not a
`ConflictError`.) -/
theorem signup_duplicate_rejected_amended
    (env : SignUpEnv) (p : AuthCredentials) (db : DB)
    (hv : env.validOk = true) :
    (db.users.any (fun u => u.email == p.email) = true →
      (signUpWithCredentials env p db).db = db ∧
      (signUpWithCredentials env p db).outcome
        = .errorResponse (.error "User already exists")) ∧
    (db.users.any (fun u => u.email == p.email) = false →
      db.users.any (fun u => u.username == p.username) = true →
      (signUpWithCredentials env p db).db = db ∧
      (signUpWithCredentials env p db).outcome
        = .errorResponse (.error "Username already exists")) := by
  constructor
  · intro hmail
    simp [signUpWithCredentials, hv, hmail, signUpAborted]
  · intro hmail husr
    simp [signUpWithCredentials, hv, hmail, husr, signUpAborted]

/-- Witness for the amended C2 at concrete inputs: one database holding
the email, one holding only the username. -/
theorem signup_duplicate_rejected_amended_witness :
    (signUpWithCredentials ⟨true, true, true, true, true, true⟩
        ⟨"Ana", "ana", "a@x.com", "pw"⟩
        ⟨[{ id := 0, name := "Ana", username := "other", email := "a@x.com",
            image := none }], [], 1⟩).outcome
      = .errorResponse (.error "User already exists") ∧
    (signUpWithCredentials ⟨true, true, true, true, true, true⟩
        ⟨"Ana", "ana", "b@x.com", "pw"⟩
        ⟨[{ id := 0, name := "Ana", username := "ana", email := "a@x.com",
            image := none }], [], 1⟩).outcome
      = .errorResponse (.error "Username already exists") :=
  ⟨((signup_duplicate_rejected_amended _ _ _ (by rfl)).1 (by rfl)).2,
    ((signup_duplicate_rejected_amended _ _ _ (by rfl)).2 (by rfl)
      (by rfl)).2⟩

/-- C3: after any sequence of OAuth link calls on a database satisfying
the two uniqueness invariants, at most one Account exists per
(provider, providerAccountId) pair and no two Users share an email — in
particular repeated sign-ins with identical provider and
providerAccountId never duplicate an Account, and no duplicate User is
created for an email that already has one. -/
theorem oauth_account_and_user_uniqueness_invariant
    (calls : List (OAuthEnv × OAuthParams)) (db : DB)
    (ha : accountKeyUnique db) (he : emailUnique db) :
    accountKeyUnique (runOAuthCalls calls db) ∧
    emailUnique (runOAuthCalls calls db) := by
  induction calls generalizing db with
  | nil => exact ⟨ha, he⟩
  | cons c rest ih =>
    have step := oauthSignIn_preserves_invariants c.1 c.2 db ha he
    exact ih (oauthSignIn c.1 c.2 db).db step.1 step.2

/-- Witness for C3: the spec's concrete scenario — two identical OAuth
sign-ins with (provider "github", providerAccountId "123") starting from
an empty database keep the invariants, and exactly one Account row exists
after both calls. -/
theorem oauth_account_and_user_uniqueness_invariant_witness :
    (accountKeyUnique (runOAuthCalls
        [(⟨true, true, true, true, true⟩,
          ⟨"github", "123", ⟨"Greg", "GregS", "g@x.com", "img"⟩⟩),
         (⟨true, true, true, true, true⟩,
          ⟨"github", "123", ⟨"Greg", "GregS", "g@x.com", "img"⟩⟩)]
        ⟨[], [], 0⟩) ∧
      emailUnique (runOAuthCalls
        [(⟨true, true, true, true, true⟩,
          ⟨"github", "123", ⟨"Greg", "GregS", "g@x.com", "img"⟩⟩),
         (⟨true, true, true, true, true⟩,
          ⟨"github", "123", ⟨"Greg", "GregS", "g@x.com", "img"⟩⟩)]
        ⟨[], [], 0⟩)) ∧
    (runOAuthCalls
        [(⟨true, true, true, true, true⟩,
          ⟨"github", "123", ⟨"Greg", "GregS", "g@x.com", "img"⟩⟩),
         (⟨true, true, true, true, true⟩,
          ⟨"github", "123", ⟨"Greg", "GregS", "g@x.com", "img"⟩⟩)]
        ⟨[], [], 0⟩).accounts.length = 1 :=
  ⟨oauth_account_and_user_uniqueness_invariant _ _
      List.Pairwise.nil List.Pairwise.nil,
    by rfl⟩

/-- C4: on every execution path of the sign-up flow, no `signIn` call
occurs before a successful `commitTransaction` event in the trace, and a
run whose trace contains a `signIn` call committed the transaction. -/
theorem signin_only_after_commit (env : SignUpEnv) (p : AuthCredentials)
    (db : DB) :
    noSignInBeforeCommit (signUpWithCredentials env p db).events = true ∧
    (Event.signInCall ∈ (signUpWithCredentials env p db).events →
      (signUpWithCredentials env p db).committed = true) := by
  rcases signUpWithCredentials_cases env p db with
    ⟨_, _, _, _, _, hev⟩ | ⟨hc, _, _, _, _, _, hev, _, _⟩
  · rcases hev with h | h <;> rw [h] <;>
      exact ⟨rfl, fun hmem => absurd hmem (by decide)⟩
  · rw [hev]; exact ⟨rfl, fun _ => hc⟩

/-- Witness for C4 at a concrete successful run: the trace contains the
`signIn` call and the run committed. -/
theorem signin_only_after_commit_witness :
    noSignInBeforeCommit (signUpWithCredentials
        ⟨true, true, true, true, true, true⟩
        ⟨"Ana", "ana", "a@x.com", "pw"⟩ ⟨[], [], 0⟩).events = true ∧
    (signUpWithCredentials ⟨true, true, true, true, true, true⟩
        ⟨"Ana", "ana", "a@x.com", "pw"⟩ ⟨[], [], 0⟩).committed = true :=
  ⟨(signin_only_after_commit _ _ _).1,
    (signin_only_after_commit _ _ _).2 (by decide)⟩

/-- C5 counterexample: when `signIn` fails after the commit, the committed
User and Account do persist (no abort), but the outcome handed to the
caller is an error response — `handleError(error)` — not a login-required
follow-up. -/
theorem signin_failure_after_commit_error_counterexample :
    (signUpWithCredentials ⟨true, true, true, true, true, false⟩
        ⟨"Ana", "ana", "a@x.com", "pw"⟩ ⟨[], [], 0⟩).committed = true ∧
    (signUpWithCredentials ⟨true, true, true, true, true, false⟩
        ⟨"Ana", "ana", "a@x.com", "pw"⟩ ⟨[], [], 0⟩).aborted = false ∧
    (signUpWithCredentials ⟨true, true, true, true, true, false⟩
        ⟨"Ana", "ana", "a@x.com", "pw"⟩ ⟨[], [], 0⟩).db.users
      = [{ id := 0, name := "Ana", username := "ana", email := "a@x.com",
           image := none }] ∧
    (signUpWithCredentials ⟨true, true, true, true, true, false⟩
        ⟨"Ana", "ana", "a@x.com", "pw"⟩ ⟨[], [], 0⟩).db.accounts
      = [{ userId := 0, name := "Ana", image := none,
           provider := "credentials", providerAccountId := "a@x.com",
           password := some { cost := 12, source := "pw" } }] ∧
    (signUpWithCredentials ⟨true, true, true, true, true, false⟩
        ⟨"Ana", "ana", "a@x.com", "pw"⟩ ⟨[], [], 0⟩).outcome
      = .errorResponse (.error "signIn failed") := by
  refine ⟨rfl, rfl, rfl, rfl, rfl⟩

/-- C5 amended: if `signIn` fails after the sign-up transaction has
committed, the committed User and Account records persist — the
transaction is not aborted and no rollback occurs — and the failure is
surfaced to the caller as an error response (via `handleError`), not as a
login-required follow-up. -/
theorem signin_failure_after_commit_persists_amended
    (env : SignUpEnv) (p : AuthCredentials) (db : DB)
    (hc : (signUpWithCredentials env p db).committed = true)
    (hs : env.signInOk = false) :
    (signUpWithCredentials env p db).aborted = false ∧
    (signUpWithCredentials env p db).db.users
      = db.users ++ [signUpNewUser p db] ∧
    (signUpWithCredentials env p db).db.accounts
      = db.accounts ++ [signUpNewAccount p db] ∧
    (signUpWithCredentials env p db).outcome
      = .errorResponse (.error "signIn failed") := by
  rcases signUpWithCredentials_cases env p db with
    ⟨hf, _⟩ | ⟨_, hdb, hab, _, _, _, _, hiff, hor⟩
  · rw [hf] at hc; cases hc
  · refine ⟨hab, by rw [hdb]; rfl, by rw [hdb]; rfl, ?_⟩
    have hne : (signUpWithCredentials env p db).outcome ≠ .success := by
      intro h
      have := hiff.mp h
      rw [hs] at this
      cases this
    rcases hor with h | h
    · exact absurd h hne
    · exact h

/-- Witness for the amended C5 at a concrete input. -/
theorem signin_failure_after_commit_persists_amended_witness :
    (signUpWithCredentials ⟨true, true, true, true, true, false⟩
        ⟨"Bea", "bea", "b@x.com", "pw2"⟩ ⟨[], [], 0⟩).aborted = false ∧
    (signUpWithCredentials ⟨true, true, true, true, true, false⟩
        ⟨"Bea", "bea", "b@x.com", "pw2"⟩ ⟨[], [], 0⟩).outcome
      = .errorResponse (.error "signIn failed") :=
  ⟨(signin_failure_after_commit_persists_amended _ _ _ (by rfl) (by rfl)).1,
    (signin_failure_after_commit_persists_amended _ _ _ (by rfl)
      (by rfl)).2.2.2⟩

/-- If the OAuth flow found no User for the incoming email and the run
committed, the committed users are the old ones plus one created from the
profile, carrying the slugified username. -/
theorem oauthSignIn_created_user (env : OAuthEnv) (p : OAuthParams)
    (db : DB)
    (hno : db.users.find? (fun x => x.email == p.user.email) = none)
    (hc : (oauthSignIn env p db).committed = true) :
    (oauthSignIn env p db).db.users = db.users ++
      [{ id := db.nextId, name := p.user.name
         username := slugify p.user.username
         email := p.user.email, image := some p.user.image }] := by
  unfold oauthSignIn at hc ⊢
  rw [hno] at hc ⊢
  by_cases hv : env.validOk = false
  · rw [if_pos hv] at hc; simp [oauthAborted] at hc
  · rw [if_neg hv] at hc ⊢
    dsimp only at hc ⊢
    by_cases hcr : env.userCreateOk = false
    · rw [if_pos hcr] at hc; simp [oauthAborted] at hc
    · rw [if_neg hcr] at hc ⊢
      by_cases hd :
          (db.users.any fun x => x.username == slugify p.user.username)
            = true
      · rw [if_pos hd] at hc; simp [oauthAborted] at hc
      · rw [if_neg hd] at hc ⊢
        rcases oauthAccountPhase_commit_cases env p db
            { users := db.users ++
                [{ id := db.nextId, name := p.user.name
                   username := slugify p.user.username
                   email := p.user.email, image := some p.user.image }]
              accounts := db.accounts
              nextId := db.nextId + 1 } db.nextId false with
          ⟨hf, _⟩ | ⟨_, hu, _⟩
        · rw [hf] at hc; cases hc
        · exact hu

/-- C6 counterexample: a successful sign-up with username "Ana" stores the
username exactly as supplied, although its slug-normalized form is "ana" —
the sign-up flow never slugifies. -/
theorem signup_username_not_slugified_counterexample :
    (signUpWithCredentials ⟨true, true, true, true, true, true⟩
        ⟨"Ana", "Ana", "a@x.com", "pw"⟩ ⟨[], [], 0⟩).db.users
      = [{ id := 0, name := "Ana", username := "Ana", email := "a@x.com",
           image := none }] ∧
    slugify "Ana" = "ana" ∧
    ("Ana" : String) ≠ "ana" := by
  refine ⟨rfl, by rfl, by decide⟩

/-- C6 amended: every User created by the OAuth link flow has the
slug-normalized form of the profile username, but the sign-up flow stores
the request username exactly as supplied, without slug normalization. -/
theorem username_slug_amended
    (oenv : OAuthEnv) (op : OAuthParams) (odb : DB)
    (env : SignUpEnv) (p : AuthCredentials) (db : DB)
    (hno : odb.users.find? (fun x => x.email == op.user.email) = none)
    (hoc : (oauthSignIn oenv op odb).committed = true)
    (hsc : (signUpWithCredentials env p db).committed = true) :
    (oauthSignIn oenv op odb).db.users = odb.users ++
      [{ id := odb.nextId, name := op.user.name
         username := slugify op.user.username
         email := op.user.email, image := some op.user.image }] ∧
    (signUpWithCredentials env p db).db.users
      = db.users ++ [signUpNewUser p db] ∧
    (signUpNewUser p db).username = p.username := by
  refine ⟨oauthSignIn_created_user _ _ _ hno hoc, ?_, rfl⟩
  rcases signUpWithCredentials_cases env p db with
    ⟨hf, _⟩ | ⟨_, hdb, _⟩
  · rw [hf] at hsc; cases hsc
  · rw [hdb]; rfl

/-- Witness for the amended C6: a concrete OAuth sign-in creating the user
with slugified username "greg-s" from profile username "Greg S", and a
concrete sign-up storing "Ana" verbatim. -/
theorem username_slug_amended_witness :
    (oauthSignIn ⟨true, true, true, true, true⟩
        ⟨"github", "123", ⟨"Greg", "Greg S", "g@x.com", "img"⟩⟩
        ⟨[], [], 0⟩).db.users
      = [{ id := 0, name := "Greg", username := slugify "Greg S"
           email := "g@x.com", image := some "img" }] ∧
    (signUpWithCredentials ⟨true, true, true, true, true, true⟩
        ⟨"Ana", "Ana", "a@x.com", "pw"⟩ ⟨[], [], 0⟩).db.users
      = [signUpNewUser ⟨"Ana", "Ana", "a@x.com", "pw"⟩ ⟨[], [], 0⟩] :=
  ⟨(username_slug_amended ⟨true, true, true, true, true⟩
      ⟨"github", "123", ⟨"Greg", "Greg S", "g@x.com", "img"⟩⟩ ⟨[], [], 0⟩
      ⟨true, true, true, true, true, true⟩
      ⟨"Ana", "Ana", "a@x.com", "pw"⟩ ⟨[], [], 0⟩
      (by rfl) (by rfl) (by rfl)).1,
    (username_slug_amended ⟨true, true, true, true, true⟩
      ⟨"github", "123", ⟨"Greg", "Greg S", "g@x.com", "img"⟩⟩ ⟨[], [], 0⟩
      ⟨true, true, true, true, true, true⟩
      ⟨"Ana", "Ana", "a@x.com", "pw"⟩ ⟨[], [], 0⟩
      (by rfl) (by rfl) (by rfl)).2.1⟩

/-- The behaviour of the OAuth flow when a User for the incoming email
exists: the `User.updateOne` write is issued exactly when the field diff
is non-empty, and the committed users are the stored ones, untouched for
an empty diff and rewritten through `applyUpdate` otherwise. -/
theorem oauthSignIn_existing_user (env : OAuthEnv) (p : OAuthParams)
    (db : DB) (u : User)
    (hv : env.validOk = true)
    (hfind : db.users.find? (fun x => x.email == p.user.email) = some u) :
    ((oauthSignIn env p db).updateIssued
        = !(diffUpdate u p.user.name p.user.image).isEmpty) ∧
    ((diffUpdate u p.user.name p.user.image).isEmpty = true →
      (oauthSignIn env p db).committed = true →
      (oauthSignIn env p db).db.users = db.users) ∧
    ((diffUpdate u p.user.name p.user.image).isEmpty = false →
      (oauthSignIn env p db).committed = true →
      (oauthSignIn env p db).db.users = db.users.map (fun v =>
        if v.id == u.id then
          applyUpdate v (diffUpdate u p.user.name p.user.image)
        else v)) := by
  unfold oauthSignIn
  rw [hfind, if_neg (by simp [hv])]
  dsimp only
  by_cases hd : (diffUpdate u p.user.name p.user.image).isEmpty = true
  · rw [if_pos hd]
    refine ⟨by simp [oauthAccountPhase_updateIssued, hd], ?_, ?_⟩
    · intro _ hc
      rcases oauthAccountPhase_commit_cases env p db db u.id false with
        ⟨hf, _⟩ | ⟨_, hu, _⟩
      · rw [hf] at hc; cases hc
      · exact hu
    · intro hne _
      rw [hd] at hne; cases hne
  · rw [if_neg hd]
    have hd' : (diffUpdate u p.user.name p.user.image).isEmpty = false := by
      simpa using hd
    by_cases hup : env.userUpdateOk = false
    · rw [if_pos hup]
      refine ⟨by simp [oauthAborted, hd'], ?_, ?_⟩
      · intro h _
        rw [h] at hd'; cases hd'
      · intro _ hc
        simp [oauthAborted] at hc
    · rw [if_neg hup]
      refine ⟨by simp [oauthAccountPhase_updateIssued, hd'], ?_, ?_⟩
      · intro h _
        rw [h] at hd'; cases hd'
      · intro _ hc
        rcases oauthAccountPhase_commit_cases env p db
            { users := db.users.map (fun v =>
                if v.id == u.id then
                  applyUpdate v (diffUpdate u p.user.name p.user.image)
                else v)
              accounts := db.accounts, nextId := db.nextId } u.id true with
          ⟨hf, _⟩ | ⟨_, hu, _⟩
        · rw [hf] at hc; cases hc
        · exact hu

/-- C7: in the OAuth link flow with an existing User for the email, the
update write is issued exactly when some mutable profile field (name,
image) differs from the stored value; the committed users are untouched
when nothing differs, and otherwise rewritten by a `$set` that sets
exactly the differing fields, leaving email, username and every
non-differing field unchanged. -/
theorem oauth_update_exact_diff (env : OAuthEnv) (p : OAuthParams)
    (db : DB) (u : User)
    (hv : env.validOk = true)
    (hfind : db.users.find? (fun x => x.email == p.user.email) = some u) :
    ((oauthSignIn env p db).updateIssued
        = !(diffUpdate u p.user.name p.user.image).isEmpty) ∧
    ((diffUpdate u p.user.name p.user.image).isEmpty = true →
      (oauthSignIn env p db).committed = true →
      (oauthSignIn env p db).db.users = db.users) ∧
    ((diffUpdate u p.user.name p.user.image).isEmpty = false →
      (oauthSignIn env p db).committed = true →
      (oauthSignIn env p db).db.users = db.users.map (fun v =>
        if v.id == u.id then
          applyUpdate v (diffUpdate u p.user.name p.user.image)
        else v)) ∧
    (applyUpdate u (diffUpdate u p.user.name p.user.image)).email
      = u.email ∧
    (applyUpdate u (diffUpdate u p.user.name p.user.image)).username
      = u.username ∧
    (u.name = p.user.name →
      (applyUpdate u (diffUpdate u p.user.name p.user.image)).name
        = u.name) ∧
    (u.name ≠ p.user.name →
      (applyUpdate u (diffUpdate u p.user.name p.user.image)).name
        = p.user.name) ∧
    (u.image = some p.user.image →
      (applyUpdate u (diffUpdate u p.user.name p.user.image)).image
        = u.image) ∧
    (u.image ≠ some p.user.image →
      (applyUpdate u (diffUpdate u p.user.name p.user.image)).image
        = some p.user.image) := by
  obtain ⟨h1, h2, h3⟩ := oauthSignIn_existing_user env p db u hv hfind
  refine ⟨h1, h2, h3, applyUpdate_email u _, applyUpdate_username u _,
    ?_, ?_, ?_, ?_⟩
  · intro h; simp [applyUpdate, diffUpdate, h]
  · intro h; simp [applyUpdate, diffUpdate, h]
  · intro h; simp [applyUpdate, diffUpdate, h]
  · intro h; simp [applyUpdate, diffUpdate, h]

/-- Witness for C7: a stored user whose name and avatar both differ from
the incoming profile gets exactly those two fields rewritten; the write
was issued. -/
theorem oauth_update_exact_diff_witness :
    (oauthSignIn ⟨true, true, true, true, true⟩
        ⟨"github", "123", ⟨"New", "Greg S", "g@x.com", "new.png"⟩⟩
        ⟨[{ id := 0, name := "Old", username := "greg", email := "g@x.com",
            image := some "old.png" }], [], 1⟩).updateIssued = true ∧
    (oauthSignIn ⟨true, true, true, true, true⟩
        ⟨"github", "123", ⟨"New", "Greg S", "g@x.com", "new.png"⟩⟩
        ⟨[{ id := 0, name := "Old", username := "greg", email := "g@x.com",
            image := some "old.png" }], [], 1⟩).db.users
      = [{ id := 0, name := "New", username := "greg", email := "g@x.com",
           image := some "new.png" }] := by
  have h := oauth_update_exact_diff
    ⟨true, true, true, true, true⟩
    ⟨"github", "123", ⟨"New", "Greg S", "g@x.com", "new.png"⟩⟩
    ⟨[{ id := 0, name := "Old", username := "greg", email := "g@x.com",
        image := some "old.png" }], [], 1⟩
    { id := 0, name := "Old", username := "greg", email := "g@x.com",
      image := some "old.png" }
    (by rfl) (by rfl)
  exact ⟨h.1.trans (by rfl),
    (h.2.2.1 (by rfl) (by rfl)).trans (by rfl)⟩

/-- C8: every successful sign-up commits exactly one new User and one new
Account; the Account references the new User with provider "credentials"
and stores the bcrypt digest of the password at cost factor 12 (≥ 12) —
the password field holds the digest, never the plaintext. -/
theorem signup_account_password_hash (env : SignUpEnv)
    (p : AuthCredentials) (db : DB)
    (h : (signUpWithCredentials env p db).outcome = .success) :
    (signUpWithCredentials env p db).db.users
      = db.users ++ [signUpNewUser p db] ∧
    (signUpWithCredentials env p db).db.accounts
      = db.accounts ++ [signUpNewAccount p db] ∧
    (signUpNewAccount p db).userId = (signUpNewUser p db).id ∧
    (signUpNewAccount p db).provider = "credentials" ∧
    (signUpNewAccount p db).password = some (bcryptHash p.password 12) ∧
    (bcryptHash p.password 12).cost ≥ 12 := by
  rcases signUpWithCredentials_cases env p db with
    ⟨_, _, ⟨e, he⟩, _⟩ | ⟨_, hdb, _⟩
  · rw [h] at he; cases he
  · exact ⟨by rw [hdb]; rfl, by rw [hdb]; rfl, rfl, rfl, rfl, Nat.le.refl⟩

/-- Witness for C8: a concrete successful sign-up stores the digest of
"pw" at cost 12 in a "credentials" Account referencing the new User. -/
theorem signup_account_password_hash_witness :
    (signUpWithCredentials ⟨true, true, true, true, true, true⟩
        ⟨"Ana", "ana", "a@x.com", "pw"⟩ ⟨[], [], 0⟩).db.accounts
      = [{ userId := 0, name := "Ana", image := none
           provider := "credentials", providerAccountId := "a@x.com"
           password := some { cost := 12, source := "pw" } }] ∧
    (bcryptHash "pw" 12).cost ≥ 12 :=
  ⟨((signup_account_password_hash _ _ _ (by rfl)).2.1).trans (by rfl),
    (signup_account_password_hash ⟨true, true, true, true, true, true⟩
      ⟨"Ana", "ana", "a@x.com", "pw"⟩ ⟨[], [], 0⟩ (by rfl)).2.2.2.2.2⟩

/-- C9: neither flow leaks the database session: the sign-up flow ends the
session exactly when it started one (validation fails before any session
exists), and the OAuth route ends its session on every exit path. -/
theorem session_always_released (env : SignUpEnv) (p : AuthCredentials)
    (db : DB) (oenv : OAuthEnv) (op : OAuthParams) (odb : DB) :
    ((signUpWithCredentials env p db).sessionEnded
        = (signUpWithCredentials env p db).sessionStarted) ∧
    (oauthSignIn oenv op odb).sessionEnded = true := by
  constructor
  · rcases signUpWithCredentials_cases env p db with
      ⟨_, _, _, _, hse, _⟩ | ⟨_, _, _, _, hst, hse, _⟩
    · exact hse
    · rw [hse, hst]
  · unfold oauthSignIn
    repeat' split
    all_goals simp [oauthAborted, oauthAccountPhase_sessionEnded]

/-- C10: every Account the sign-up flow commits has its
providerAccountId equal to the user's email, and the `jwt` callback's
lookup key for a "credentials" account — the token's email — therefore
equals that Account's providerAccountId, whatever providerAccountId the
session framework would otherwise supply. -/
theorem credentials_account_provider_id_is_email (env : SignUpEnv)
    (p : AuthCredentials) (db : DB) (pid : String)
    (hc : (signUpWithCredentials env p db).committed = true) :
    (signUpWithCredentials env p db).db.accounts
      = db.accounts ++ [signUpNewAccount p db] ∧
    (signUpNewAccount p db).provider = "credentials" ∧
    (signUpNewAccount p db).providerAccountId = p.email ∧
    jwtAccountLookupKey "credentials" p.email pid
      = (signUpNewAccount p db).providerAccountId := by
  rcases signUpWithCredentials_cases env p db with
    ⟨hf, _⟩ | ⟨_, hdb, _⟩
  · rw [hf] at hc; cases hc
  · exact ⟨by rw [hdb]; rfl, rfl, rfl, by rfl⟩

/-- Witness for C10 at a concrete sign-up: the committed Account's
providerAccountId is the email, and the jwt lookup key matches it. -/
theorem credentials_account_provider_id_is_email_witness :
    (signUpWithCredentials ⟨true, true, true, true, true, true⟩
        ⟨"Ana", "ana", "a@x.com", "pw"⟩ ⟨[], [], 0⟩).db.accounts
      = [signUpNewAccount ⟨"Ana", "ana", "a@x.com", "pw"⟩ ⟨[], [], 0⟩] ∧
    jwtAccountLookupKey "credentials" "a@x.com" "ignored"
      = (signUpNewAccount ⟨"Ana", "ana", "a@x.com", "pw"⟩
          ⟨[], [], 0⟩).providerAccountId :=
  ⟨(credentials_account_provider_id_is_email _ _ _ "ignored" (by rfl)).1,
    (credentials_account_provider_id_is_email
      ⟨true, true, true, true, true, true⟩
      ⟨"Ana", "ana", "a@x.com", "pw"⟩ ⟨[], [], 0⟩ "ignored"
      (by rfl)).2.2.2⟩

end Devflow
